import Mathlib

/-!
Verification development for the imguiXmlOop repository: a shallow embedding
of the widget tree, the XML-to-widget translator, the panel / DPI machinery
and the file watcher, with theorems checking the specification's claims.

Floating-point values of the C++ source are modelled as rationals; the
special value `YGUndefined` (which is IEEE NaN in the layout solver's API)
is modelled as `none` in `Option ℚ`, and the IEEE comparison semantics of
NaN is modelled explicitly where the source compares against `YGUndefined`.
-/

namespace ImguiXmlOop

/-! ## Character-level string helpers (models of std::string operations) -/

/-- Character-list helper for `s.find(p) == 0`: first argument is the
pattern, second the string; true when the pattern is a prefix. -/
def pfxAt : List Char → List Char → Bool
  | [], _ => true
  | _ :: _, [] => false
  | pc :: ps, c :: cs => c == pc && pfxAt ps cs

/-- Model of `std::string::substr(n)`: drop the first `n` characters. -/
def substrFrom (s : String) (n : Nat) : String :=
  ⟨s.data.drop n⟩

/-- Model of `s.find(p) == 0` on `String`. -/
def findAtZero (s p : String) : Bool :=
  pfxAt p.data s.data

/-- Decimal digit test used by the numeric-conversion models. -/
def isDigitCh (c : Char) : Bool :=
  '0' ≤ c && c ≤ '9'

/-- Parse a maximal run of leading decimal digits, returning the value read
so far and the remaining characters; `none` when no digit is present. -/
def parseDigits : List Char → Option (Nat × List Char)
  | [] => none
  | c :: cs =>
    if isDigitCh c then
      match parseDigits cs with
      | some (v, rest) => some ((c.toNat - '0'.toNat) * 10 ^ (cs.length - rest.length) + v, rest)
      | none => some (c.toNat - '0'.toNat, cs)
    else none

/-- Model of `std::stoi`: skip leading spaces, an optional sign, then a
maximal run of decimal digits (trailing characters are ignored, as in C++).
Returns `none` when no conversion can be performed (std::invalid_argument)
or when the value does not fit in a 32-bit `int` (std::out_of_range). -/
def stoiInt (s : String) : Option Int :=
  let cs := s.data.dropWhile (fun c => c == ' ')
  let (neg, cs) : Bool × List Char :=
    match cs with
    | '-' :: rest => (true, rest)
    | '+' :: rest => (false, rest)
    | _ => (false, cs)
  match parseDigits cs with
  | none => none
  | some (v, _) =>
    let i : Int := if neg then -(v : Int) else (v : Int)
    if -(2 ^ 31) ≤ i ∧ i < 2 ^ 31 then some i else none

/-- Model of `std::stof` restricted to plain decimal literals: skip leading
spaces, an optional sign, then digits with an optional fractional part
(trailing characters are ignored, as in C++). Returns `none` when no
conversion can be performed (std::invalid_argument). The source never
feeds hex / exponent / inf / nan spellings to `std::stof`. -/
def stofQ (s : String) : Option ℚ :=
  let cs := s.data.dropWhile (fun c => c == ' ')
  let (neg, cs) : Bool × List Char :=
    match cs with
    | '-' :: rest => (true, rest)
    | '+' :: rest => (false, rest)
    | _ => (false, cs)
  match parseDigits cs with
  | none => none
  | some (ip, rest) =>
    let frac : ℚ :=
      match rest with
      | '.' :: fs =>
        match parseDigits fs with
        | some (fv, frest) => (fv : ℚ) / (10 : ℚ) ^ (fs.length - frest.length)
        | none => 0
      | _ => 0
    let v : ℚ := (ip : ℚ) + frac
    some (if neg then -v else v)

/-! ## External data model (AppData.h) -/

/-- City record of `AppData.h`; numeric fields are modelled as rationals /
integers. -/
structure CityData where
  cname : String := ""
  latitude : ℚ := 0
  longitude : ℚ := 0
  elevation : Int := 0
  avg_temp : ℚ := 0
  population : Int := 0
  climate_zone : Int := 0
  deriving Repr, DecidableEq

/-- Application data structure of `AppData.h`. -/
structure AppData where
  aname : String := ""
  email : String := ""
  python_selected : Bool := false
  go_selected : Bool := false
  swift_selected : Bool := false
  rust_selected : Bool := false
  cpp_selected : Bool := false
  cities : List CityData := []
  deriving Repr, DecidableEq

/-- Address of a field inside the external `AppData` record; the C++ source
stores a raw pointer, modelled here as a symbolic field reference. -/
inductive FieldRef where
  | fname
  | femail
  | fpython
  | fgo
  | fswift
  | frust
  | fcpp
  | cityName (i : Nat)
  | cityLat (i : Nat)
  | cityLon (i : Nat)
  | cityElev (i : Nat)
  | cityTemp (i : Nat)
  | cityPop (i : Nat)
  | cityClimate (i : Nat)
  deriving Repr, DecidableEq

/-- Model of the C++ comparison `city_idx < app_data->cities.size()`, where
`city_idx` is a signed `int` and `size()` an unsigned 64-bit `size_t`: the
`int` is converted to `size_t` modulo 2^64 before the unsigned comparison. -/
def idxInRange (i : Int) (n : Nat) : Bool :=
  (i % (2 : Int) ^ 64).toNat < n

/-! ## Widget model (Widget.h / Widget.cpp) -/

/-- Variant tag of the concrete widget classes. -/
inductive WKind where
  | label
  | inputText
  | inputNumber
  | checkbox
  | radio
  | button
  | hlayout
  | vlayout
  deriving Repr, DecidableEq

/-- Container test: `dynamic_cast<ContainerWidget*>` succeeds exactly for
the two layout variants. -/
def WKind.isContainer : WKind → Bool
  | .hlayout => true
  | .vlayout => true
  | _ => false

/-- Model of `Widget::Style` with the defaults of `Widget.h`. -/
structure WStyle where
  margin : ℚ := 0
  padding : ℚ := 0
  gap : ℚ := 8
  justify : String := "flex-start"
  align : String := "stretch"
  align_self : String := "auto"
  disabled : Bool := false
  variant : String := "default"
  font_size : String := "default"
  bold : Bool := false
  text_color : String := "default"
  bg_color : String := "default"
  stretch : Bool := false
  wrap : Bool := false
  deriving Repr, DecidableEq

/-- The layout solver's `YGUndefined` marker. In the C API it is IEEE NaN;
here it is `none`. -/
def YGUndef : Option ℚ := none

/-- IEEE-754 semantics of the C++ comparison `a != b` on floats where
`none` stands for NaN: a comparison involving NaN is always "unequal". -/
def fneq (a b : Option ℚ) : Bool :=
  match a, b with
  | some x, some y => x != y
  | _, _ => true

/-- Data carried by one widget node: identity, variant-specific fields,
the external-field binding, the widget-level size fields (`width_`,
`height_`, `flex_`, initialised to `YGUndefined`) and the paired solver
node's sizing style (`none` = undefined / auto). -/
structure WData where
  kind : WKind
  wid : String := ""
  text : String := ""
  group : String := ""
  rvalue : Int := 0
  bindF : Option FieldRef := none
  hasCallback : Bool := false
  width_ : Option ℚ := YGUndef
  height_ : Option ℚ := YGUndef
  flex_ : Option ℚ := YGUndef
  style : WStyle := {}
  ygWidth : Option ℚ := none
  ygHeight : Option ℚ := none
  ygFlex : Option ℚ := none
  deriving Repr, DecidableEq

/-- Model of `Widget::set_width`: stores the value, then writes the solver
node's width style when the guard `width != YGUndefined` holds. Because
`YGUndefined` is NaN, the guard follows IEEE `!=` semantics (`fneq`). -/
def Widget.set_width (d : WData) (v : Option ℚ) : WData :=
  let d' := { d with width_ := v }
  if fneq v YGUndef then { d' with ygWidth := v } else d'

/-- Model of `Widget::set_height`; same structure as `set_width`. -/
def Widget.set_height (d : WData) (v : Option ℚ) : WData :=
  let d' := { d with height_ := v }
  if fneq v YGUndef then { d' with ygHeight := v } else d'

/-- Model of `Widget::set_flex`; same structure as `set_width`. -/
def Widget.set_flex (d : WData) (v : Option ℚ) : WData :=
  let d' := { d with flex_ := v }
  if fneq v YGUndef then { d' with ygFlex := v } else d'

/-- A widget tree node: its data plus (only used by the container
variants) its ordered child list. -/
inductive PWidget where
  | node (data : WData) (children : List PWidget)

/-- Data component of a widget-tree node. -/
def PWidget.data : PWidget → WData
  | .node d _ => d

/-- Children component of a widget-tree node. -/
def PWidget.children : PWidget → List PWidget
  | .node _ cs => cs

/-! ## Attributed element tree (the markup parser's output) and the
translator (XmlParser.cpp) -/

/-- An attributed markup element: tag name, attribute list, child elements.
This is the black-box output of the markup tokenizer (tinyxml2). -/
inductive XmlElement where
  | mk (ename : String) (attrs : List (String × String)) (children : List XmlElement)

/-- Tag name of an element. -/
def XmlElement.ename : XmlElement → String
  | .mk n _ _ => n

/-- Attribute list of an element. -/
def XmlElement.attrs : XmlElement → List (String × String)
  | .mk _ a _ => a

/-- Child elements of an element. -/
def XmlElement.children : XmlElement → List XmlElement
  | .mk _ _ c => c

/-- Model of tinyxml2 `XMLElement::Attribute`: the first attribute with the
given name, or `none`. -/
def getAttr (e : XmlElement) (nm : String) : Option String :=
  (e.attrs.find? (fun p => p.1 == nm)).map (fun p => p.2)

/-- Model of `XmlParser::get_attribute`: attribute value or a default. -/
def get_attribute (e : XmlElement) (nm : String) (dflt : String) : String :=
  (getAttr e nm).getD dflt

/-- Exception escaping the translator: `std::invalid_argument` or
`std::out_of_range` thrown by an uncaught `std::stof` / `std::stoi`. -/
inductive PErr where
  | invalidNumeric
  deriving Repr, DecidableEq

/-- Conversion that throws on failure, modelling an *uncaught* call of
`std::stof`. -/
def stofOrThrow (s : String) : Except PErr ℚ :=
  match stofQ s with
  | some q => .ok q
  | none => .error .invalidNumeric

/-- Bind resolution of `InputParsingStrategy::parse` for `type == "text"`:
the if/else chain over the bind string. A failing `std::stoi` on the index
is caught locally (binding stays empty). -/
def resolveTextBind (app : AppData) (bind : String) : Option FieldRef :=
  if bind == "name" then some .fname
  else if bind == "email" then some .femail
  else if findAtZero bind "city_name_" then
    match stoiInt (substrFrom bind 10) with
    | some i => if idxInRange i app.cities.length then some (.cityName (i % (2 : Int) ^ 64).toNat) else none
    | none => none
  else none

/-- Bind resolution of `InputParsingStrategy::parse` for `type == "number"`:
the if/else chain over the five numeric city-field patterns. A failing
`std::stoi` on the index is caught locally (binding stays empty). -/
def resolveNumberBind (app : AppData) (bind : String) : Option FieldRef :=
  if findAtZero bind "city_lat_" then
    match stoiInt (substrFrom bind 9) with
    | some i => if idxInRange i app.cities.length then some (.cityLat (i % (2 : Int) ^ 64).toNat) else none
    | none => none
  else if findAtZero bind "city_lon_" then
    match stoiInt (substrFrom bind 9) with
    | some i => if idxInRange i app.cities.length then some (.cityLon (i % (2 : Int) ^ 64).toNat) else none
    | none => none
  else if findAtZero bind "city_elev_" then
    match stoiInt (substrFrom bind 10) with
    | some i => if idxInRange i app.cities.length then some (.cityElev (i % (2 : Int) ^ 64).toNat) else none
    | none => none
  else if findAtZero bind "city_temp_" then
    match stoiInt (substrFrom bind 10) with
    | some i => if idxInRange i app.cities.length then some (.cityTemp (i % (2 : Int) ^ 64).toNat) else none
    | none => none
  else if findAtZero bind "city_pop_" then
    match stoiInt (substrFrom bind 9) with
    | some i => if idxInRange i app.cities.length then some (.cityPop (i % (2 : Int) ^ 64).toNat) else none
    | none => none
  else none

/-- Bind resolution of `CheckboxParsingStrategy::parse`. -/
def resolveCheckboxBind (bind : String) : Option FieldRef :=
  if bind == "python" then some .fpython
  else if bind == "go" then some .fgo
  else if bind == "swift" then some .fswift
  else if bind == "rust" then some .frust
  else if bind == "cpp" then some .fcpp
  else none

/-- Bind resolution of `RadioParsingStrategy::parse`. A failing `std::stoi`
on the index is caught locally (binding stays empty). -/
def resolveRadioBind (app : AppData) (bind : String) : Option FieldRef :=
  if findAtZero bind "city_climate_" then
    match stoiInt (substrFrom bind 13) with
    | some i => if idxInRange i app.cities.length then some (.cityClimate (i % (2 : Int) ^ 64).toNat) else none
    | none => none
  else none

/-- Model of `LabelParsingStrategy::parse`. -/
def labelStrategy (e : XmlElement) : Option WData :=
  some { kind := .label, wid := get_attribute e "id" "", text := get_attribute e "text" "" }

/-- Model of `InputParsingStrategy::parse`: `type` defaults to "text"; the
strategy returns a null widget for any other `type` value. -/
def inputStrategy (e : XmlElement) (app : AppData) : Option WData :=
  let id := get_attribute e "id" ""
  let ty := get_attribute e "type" "text"
  let bind := get_attribute e "bind" ""
  if ty == "text" then
    some { kind := .inputText, wid := id, bindF := resolveTextBind app bind }
  else if ty == "number" then
    some { kind := .inputNumber, wid := id, bindF := resolveNumberBind app bind }
  else
    none

/-- Model of `CheckboxParsingStrategy::parse`. -/
def checkboxStrategy (e : XmlElement) (app : AppData) : Option WData :=
  let _ := app
  some { kind := .checkbox, wid := get_attribute e "id" "",
         text := get_attribute e "text" "",
         bindF := resolveCheckboxBind (get_attribute e "bind" "") }

/-- Model of `RadioParsingStrategy::parse`: the `value` attribute (default
"0") goes through an *uncaught* `std::stoi`, so an invalid value throws out
of the strategy. -/
def radioStrategy (e : XmlElement) (app : AppData) : Except PErr (Option WData) :=
  let value_str := get_attribute e "value" "0"
  match stoiInt value_str with
  | none => .error .invalidNumeric
  | some v =>
    .ok (some { kind := .radio, wid := get_attribute e "id" "",
                text := get_attribute e "text" "",
                group := get_attribute e "group" "",
                rvalue := v,
                bindF := resolveRadioBind app (get_attribute e "bind" "") })

/-- Model of `ButtonParsingStrategy::parse`: the click handler is looked up
by the element's id in the externally supplied callback map (modelled as
the list of registered ids). -/
def buttonStrategy (e : XmlElement) (cbs : List String) : Option WData :=
  let id := get_attribute e "id" ""
  some { kind := .button, wid := id, text := get_attribute e "text" "",
         hasCallback := cbs.contains id }

/-- Model of `LayoutParsingStrategy::parse`. -/
def layoutStrategy (e : XmlElement) : Option WData :=
  let id := get_attribute e "id" ""
  if e.ename == "hlayout" then some { kind := .hlayout, wid := id }
  else if e.ename == "vlayout" then some { kind := .vlayout, wid := id }
  else none

/-- Strategy-map dispatch of `XmlParser::parse_element`: `none` when the
tag has no registered strategy; otherwise the strategy's result (possibly
a thrown exception, possibly a null widget). -/
def runStrategy (e : XmlElement) (app : AppData) (cbs : List String) :
    Option (Except PErr (Option WData)) :=
  if e.ename == "label" then some (.ok (labelStrategy e))
  else if e.ename == "input" then some (.ok (inputStrategy e app))
  else if e.ename == "checkbox" then some (.ok (checkboxStrategy e app))
  else if e.ename == "radio" then some (radioStrategy e app)
  else if e.ename == "button" then some (.ok (buttonStrategy e cbs))
  else if e.ename == "hlayout" then some (.ok (layoutStrategy e))
  else if e.ename == "vlayout" then some (.ok (layoutStrategy e))
  else none

/-- Model of `Widget::setup_yoga_layout` / its overrides, which re-derive
the solver node's direction / gap / justify / align / margin / padding from
the current style. None of those solver attributes are tracked by this
model; the hook never touches the solver sizing styles or any field
tracked in `WData`, so it is the identity here. -/
def setup_yoga_layout (d : WData) : WData := d

/-- Model of `XmlParser::apply_style_properties`: each style field is
overwritten only when the attribute is present (non-empty); the three
numeric attributes go through *uncaught* `std::stof` calls. -/
def apply_style_properties (st : WStyle) (e : XmlElement) : Except PErr WStyle := do
  let margin_str := get_attribute e "margin" ""
  let st ← if margin_str ≠ "" then do
      pure { st with margin := (← stofOrThrow margin_str) }
    else pure st
  let padding_str := get_attribute e "padding" ""
  let st ← if padding_str ≠ "" then do
      pure { st with padding := (← stofOrThrow padding_str) }
    else pure st
  let gap_str := get_attribute e "gap" ""
  let st ← if gap_str ≠ "" then do
      pure { st with gap := (← stofOrThrow gap_str) }
    else pure st
  let st := { st with justify := get_attribute e "justify" st.justify,
                      align := get_attribute e "align" st.align,
                      align_self := get_attribute e "align-self" st.align_self }
  let disabled_str := get_attribute e "disabled" ""
  let st := if disabled_str ≠ "" then
      { st with disabled := disabled_str == "true" || disabled_str == "1" }
    else st
  let st := { st with variant := get_attribute e "variant" st.variant,
                      font_size := get_attribute e "font-size" st.font_size }
  let bold_str := get_attribute e "bold" ""
  let st := if bold_str ≠ "" then
      { st with bold := bold_str == "true" || bold_str == "1" }
    else st
  let st := { st with text_color := get_attribute e "text-color" st.text_color,
                      bg_color := get_attribute e "bg-color" st.bg_color }
  let stretch_str := get_attribute e "stretch" ""
  let st := if stretch_str ≠ "" then
      { st with stretch := stretch_str == "true" || stretch_str == "1" }
    else st
  let wrap_str := get_attribute e "wrap" ""
  let st := if wrap_str ≠ "" then
      { st with wrap := wrap_str == "true" || wrap_str == "1" }
    else st
  pure st

/-- Model of `XmlParser::apply_properties_to_widget`: width / height / flex
are parsed with *uncaught* `std::stof` when present (non-empty) and written
through the widget setters; then the style attributes are applied and the
layout-configuration hook is re-run. -/
def apply_properties_to_widget (d : WData) (e : XmlElement) : Except PErr WData := do
  let width_str := get_attribute e "width" ""
  let d ← if width_str ≠ "" then do
      pure (Widget.set_width d (some (← stofOrThrow width_str)))
    else pure d
  let height_str := get_attribute e "height" ""
  let d ← if height_str ≠ "" then do
      pure (Widget.set_height d (some (← stofOrThrow height_str)))
    else pure d
  let flex_str := get_attribute e "flex" ""
  let d ← if flex_str ≠ "" then do
      pure (Widget.set_flex d (some (← stofOrThrow flex_str)))
    else pure d
  let st ← apply_style_properties d.style e
  pure (setup_yoga_layout { d with style := st })

mutual

/-- Model of `XmlParser::parse_element`: strategy dispatch (unknown tag or
null strategy result gives no widget), then attribute application, then
recursion into child elements for container widgets. A thrown exception
propagates out unhindered. -/
def parse_element (app : AppData) (cbs : List String) :
    XmlElement → Except PErr (Option PWidget)
  | .mk nm attrs cs => do
    let e := XmlElement.mk nm attrs cs
    match runStrategy e app cbs with
    | none => pure none
    | some r =>
      match (← r) with
      | none => pure none
      | some d => do
        let d ← apply_properties_to_widget d e
        if d.kind.isContainer then do
          let ch ← parse_children app cbs cs
          pure (some (.node d ch))
        else
          pure (some (.node d []))

/-- The child loop of `XmlParser::parse_element`: each child element is
parsed in order; null results are skipped, non-null results are attached
via `add_child`; an exception aborts the loop and propagates. -/
def parse_children (app : AppData) (cbs : List String) :
    List XmlElement → Except PErr (List PWidget)
  | [] => pure []
  | e :: es => do
    match (← parse_element app cbs e) with
    | some w => do
      let rest ← parse_children app cbs es
      pure (w :: rest)
    | none => parse_children app cbs es

end

/-! ## Container child management (Widget.cpp: ContainerWidget) -/

/-- A child widget as seen by the container bookkeeping: its id and the
solver node it owns (solver nodes are distinct allocations). -/
structure ChildW where
  cid : String
  node : Nat
  deriving Repr, DecidableEq

/-- Bookkeeping state of one `ContainerWidget`: the owned ordered child
widget sequence and the child list of the container's own solver node. -/
structure ContainerState where
  childrenW : List ChildW := []
  yogaChildren : List Nat := []
  deriving Repr, DecidableEq

/-- Model of `ContainerWidget::add_child`: a null child returns
immediately; otherwise `YGNodeInsertChild(yoga_node_, child_node,
children_.size())` inserts the child's solver node at index
`children_.size()` and the widget is pushed onto the child sequence. -/
def ContainerWidget.add_child (s : ContainerState) (c : Option ChildW) : ContainerState :=
  match c with
  | none => s
  | some w =>
    { childrenW := s.childrenW ++ [w],
      yogaChildren := s.yogaChildren.insertIdx s.childrenW.length w.node }

/-- Model of `ContainerWidget::remove_child`: find the first child whose id
matches; if found, `YGNodeRemoveChild` removes that child's solver node
(first occurrence, by node identity) and the widget is erased; otherwise a
no-op. -/
def ContainerWidget.remove_child (s : ContainerState) (id : String) : ContainerState :=
  match s.childrenW.findIdx? (fun w => w.cid == id) with
  | none => s
  | some i =>
    match s.childrenW[i]? with
    | none => s
    | some w =>
      { childrenW := s.childrenW.eraseIdx i,
        yogaChildren := s.yogaChildren.erase w.node }

/-- One child-management operation on a container. -/
inductive COp where
  | add (id : String)
  | remove (id : String)
  deriving Repr, DecidableEq

/-- Container bookkeeping plus the solver-node allocator: every widget's
solver node comes from a fresh `YGNodeNew()` allocation, modelled by a
counter. -/
structure AllocState where
  cont : ContainerState := {}
  nextNode : Nat := 0
  deriving Repr, DecidableEq

/-- Run one operation: `add id` constructs a fresh widget (allocating its
solver node) and hands it to `add_child`; `remove id` calls
`remove_child`. -/
def stepCOp (s : AllocState) : COp → AllocState
  | .add id =>
    { cont := ContainerWidget.add_child s.cont (some ⟨id, s.nextNode⟩),
      nextNode := s.nextNode + 1 }
  | .remove id =>
    { s with cont := ContainerWidget.remove_child s.cont id }

/-- Run a sequence of child-management operations from a fresh container. -/
def runCOps (ops : List COp) : AllocState :=
  ops.foldl stepCOp {}

/-! ## Panel model (part of the panel implementation with epsilon gating,
DPI rescale and the size-dirty flag) -/

/-- Observable state of a `Panel`. Sizes are rationals; `lastLayoutWidth` /
`lastLayoutHeight` cache the size of the last solver invocation. -/
structure PanelState where
  ptitle : String := "Panel"
  pwidth : ℚ := 400
  pheight : ℚ := 300
  baseWidth : ℚ := 400
  baseHeight : ℚ := 300
  dpiScale : ℚ := 1
  isOpen : Bool := true
  hasRoot : Bool := false
  lastLayoutWidth : ℚ := 0
  lastLayoutHeight : ℚ := 0
  sizeDirty : Bool := false
  deriving Repr, DecidableEq

/-- Model of the `Panel` constructor: logical and physical size start
equal, DPI scale starts at 1. -/
def Panel.new (t : String) (w h : ℚ) : PanelState :=
  { ptitle := t, pwidth := w, pheight := h, baseWidth := w, baseHeight := h }

/-- Model of `Panel::update_layout`: with a root widget present, solve at
the panel's own size and record it as the last-solved size. -/
def Panel.update_layout (s : PanelState) : PanelState :=
  if s.hasRoot then
    { s with lastLayoutWidth := s.pwidth, lastLayoutHeight := s.pheight }
  else s

/-- Model of `Panel::set_width`: stores the physical width, re-derives the
logical width from the current DPI scale (guarding against a non-positive
scale) and marks the window size dirty. -/
def Panel.set_width (s : PanelState) (w : ℚ) : PanelState :=
  { s with pwidth := w,
           baseWidth := if 0 < s.dpiScale then w / s.dpiScale else w,
           sizeDirty := true }

/-- Model of `Panel::set_height`; mirror of `set_width`. -/
def Panel.set_height (s : PanelState) (h : ℚ) : PanelState :=
  { s with pheight := h,
           baseHeight := if 0 < s.dpiScale then h / s.dpiScale else h,
           sizeDirty := true }

/-- Model of `Panel::set_dpi_scale`: a non-positive scale returns
immediately; otherwise the physical size is recomputed from the logical
size, the cached last-solved size is invalidated and an immediate solve is
performed. -/
def Panel.set_dpi_scale (s : PanelState) (scale : ℚ) : PanelState :=
  if scale ≤ 0 then s
  else
    Panel.update_layout
      { s with dpiScale := scale,
               pwidth := s.baseWidth * scale,
               pheight := s.baseHeight * scale,
               lastLayoutWidth := -1,
               lastLayoutHeight := -1,
               sizeDirty := true }

/-- Model of `Panel::set_root_widget`: installs a root, invalidates the
cached last-solved size and solves immediately. -/
def Panel.set_root_widget (s : PanelState) : PanelState :=
  Panel.update_layout
    { s with hasRoot := true, lastLayoutWidth := -1, lastLayoutHeight := -1 }

/-- One size/DPI operation on a panel. -/
inductive POp where
  | setW (w : ℚ)
  | setH (h : ℚ)
  | setDpi (k : ℚ)

/-- Run one panel operation. -/
def stepPOp (s : PanelState) : POp → PanelState
  | .setW w => Panel.set_width s w
  | .setH h => Panel.set_height s h
  | .setDpi k => Panel.set_dpi_scale s k

/-- What the rendering backend reports during one `Panel::render` call:
whether `ImGui::Begin` returned visible, whether the user clicked the
window's close box, and the available content box. -/
structure RenderInput where
  beginOk : Bool := true
  closeClicked : Bool := false
  availW : ℚ := 0
  availH : ℚ := 0
  deriving Repr, DecidableEq

/-- The epsilon of the render gate (`kEpsilon = 0.5f`). -/
def kEpsilon : ℚ := 1 / 2

/-- Model of `Panel::render`: a closed panel does nothing; otherwise the
size-dirty flag is consumed, `ImGui::Begin` runs (possibly clearing the
open flag via the close box), and when the window is visible and a root
widget exists, `update_layout` is invoked on the root only if the
available width or height moved by more than epsilon since the last
solve. Returns the new state and whether the solver ran. -/
def Panel.render (s : PanelState) (inp : RenderInput) : PanelState × Bool :=
  if s.isOpen = false then (s, false)
  else
    let s1 := { s with sizeDirty := false, isOpen := !inp.closeClicked }
    if inp.beginOk && s.hasRoot then
      if abs (s1.lastLayoutWidth - inp.availW) > kEpsilon
          ∨ abs (s1.lastLayoutHeight - inp.availH) > kEpsilon then
        ({ s1 with lastLayoutWidth := inp.availW, lastLayoutHeight := inp.availH }, true)
      else
        (s1, false)
    else
      (s1, false)

/-! ## Hot-reload file watcher (XmlFileWatcher) -/

/-- Watcher state: the stored modification time and the registered
observers (identified by numbers). -/
structure WatcherState where
  lastModifiedTime : Int := 0
  observers : List Nat := []
  deriving Repr, DecidableEq

/-- Model of `XmlFileWatcher::get_file_modified_time`: the document is
either accessible with a modification time (`some t`) or inaccessible
(`none`); inaccessibility — and any filesystem exception — yields 0. -/
def get_file_modified_time (fs : Option Int) : Int :=
  match fs with
  | some t => t
  | none => 0

/-- Model of `XmlFileWatcher::has_changed`: reads the current modification
time; if it differs from the stored one and is non-zero, stores it,
notifies all observers and returns true; otherwise returns false. The
result is (returned flag, new state, observers notified). -/
def has_changed (s : WatcherState) (fs : Option Int) : Bool × WatcherState × List Nat :=
  let current := get_file_modified_time fs
  if current ≠ s.lastModifiedTime ∧ current ≠ 0 then
    (true, { s with lastModifiedTime := current }, s.observers)
  else
    (false, s, [])

/-! ## Theorems -/

/-- Commutation of `map` with `eraseIdx`, used for the container
invariant. -/
theorem map_eraseIdx_comm {α β : Type} (f : α → β) :
    ∀ (l : List α) (i : Nat), (l.eraseIdx i).map f = (l.map f).eraseIdx i := by
  intro l
  induction l with
  | nil => intro i; simp
  | cons a t ih =>
    intro i
    cases i with
    | zero => simp
    | succ j => simp [List.eraseIdx_cons_succ, ih j]

/-- Invariant carried through the container-operation induction: the solver
child list mirrors the widget child list, the solver nodes are pairwise
distinct, and all solver nodes come from past allocations. -/
def ContInv (s : AllocState) : Prop :=
  s.cont.yogaChildren = s.cont.childrenW.map ChildW.node ∧
  (s.cont.childrenW.map ChildW.node).Nodup ∧
  ∀ c ∈ s.cont.childrenW, c.node < s.nextNode

theorem contInv_init : ContInv {} := by
  refine ⟨rfl, List.nodup_nil, ?_⟩
  intro c hc
  simp [AllocState.cont] at hc

theorem contInv_step (s : AllocState) (op : COp) (h : ContInv s) :
    ContInv (stepCOp s op) := by
  obtain ⟨hmap, hnodup, hbound⟩ := h
  cases op with
  | add id =>
    refine ⟨?_, ?_, ?_⟩
    · simp only [stepCOp, ContainerWidget.add_child]
      rw [hmap,
        show s.cont.childrenW.length = (List.map ChildW.node s.cont.childrenW).length from
          (List.length_map _ _).symm,
        List.insertIdx_length_self, List.map_append]
      simp
    · simp only [stepCOp, ContainerWidget.add_child, List.map_append, List.map_cons,
        List.map_nil]
      rw [List.nodup_append]
      refine ⟨hnodup, List.nodup_singleton _, ?_⟩
      intro a ha hb
      simp only [List.mem_singleton] at hb
      subst hb
      simp only [List.mem_map] at ha
      obtain ⟨c, hc, hca⟩ := ha
      have := hbound c hc
      omega
    · intro c hc
      simp only [stepCOp, ContainerWidget.add_child, List.mem_append,
        List.mem_singleton] at hc
      rcases hc with hc | hc
      · exact Nat.lt_succ_of_lt (hbound c hc)
      · subst hc; exact Nat.lt_succ_self _
  | remove id =>
    dsimp only [stepCOp]
    cases hf : s.cont.childrenW.findIdx? (fun w => w.cid == id) with
    | none =>
      have hred : ContainerWidget.remove_child s.cont id = s.cont := by
        unfold ContainerWidget.remove_child
        rw [hf]
      rw [hred]
      exact ⟨hmap, hnodup, hbound⟩
    | some i =>
      have hi : i < s.cont.childrenW.length :=
        (List.findIdx?_eq_some_iff_findIdx_eq.mp hf).1
      cases hg : s.cont.childrenW[i]? with
      | none =>
        exact absurd (List.getElem?_eq_none_iff.mp hg) (by omega)
      | some w =>
        have hw : s.cont.childrenW[i] = w := by
          have h2 := List.getElem?_eq_getElem hi
          rw [hg] at h2
          exact (Option.some.injEq _ _).mp h2.symm
        have hred : ContainerWidget.remove_child s.cont id =
            { childrenW := s.cont.childrenW.eraseIdx i,
              yogaChildren := s.cont.yogaChildren.erase w.node } := by
          unfold ContainerWidget.remove_child
          rw [hf]
          dsimp only
          rw [hg]
        rw [hred]
        refine ⟨?_, ?_, ?_⟩
        · show s.cont.yogaChildren.erase w.node =
            List.map ChildW.node (s.cont.childrenW.eraseIdx i)
          have hilen : i < (List.map ChildW.node s.cont.childrenW).length := by
            rw [List.length_map]
            exact hi
          have hnode : w.node = (List.map ChildW.node s.cont.childrenW).get ⟨i, hilen⟩ := by
            rw [List.get_eq_getElem, List.getElem_map, hw]
          rw [hmap, hnode, List.get_eq_getElem,
            hnodup.erase_getElem i hilen, ← map_eraseIdx_comm]
        · show (List.map ChildW.node (s.cont.childrenW.eraseIdx i)).Nodup
          rw [map_eraseIdx_comm]
          exact hnodup.sublist (List.eraseIdx_sublist _ i)
        · intro c hc
          have hc2 : c ∈ s.cont.childrenW.eraseIdx i := hc
          exact hbound c (List.eraseIdx_subset _ _ hc2)

theorem contInv_run (ops : List COp) : ∀ s, ContInv s → ContInv (ops.foldl stepCOp s) := by
  induction ops with
  | nil => intro s h; exact h
  | cons op rest ih =>
    intro s h
    exact ih _ (contInv_step s op h)

/-- C2: after any finite sequence of `add_child` / `remove_child`
operations on a container, the child list of the container's solver node
has the same count and order as the widget child sequence, and the i-th
solver child is exactly the solver node owned by the i-th widget child. -/
theorem c2_solver_children_isomorphic (ops : List COp) :
    (runCOps ops).cont.yogaChildren = (runCOps ops).cont.childrenW.map ChildW.node ∧
    (runCOps ops).cont.yogaChildren.length = (runCOps ops).cont.childrenW.length ∧
    ∀ i : Nat, (runCOps ops).cont.yogaChildren[i]? =
      ((runCOps ops).cont.childrenW[i]?).map ChildW.node := by
  have hinv : ContInv (runCOps ops) := contInv_run ops {} contInv_init
  obtain ⟨hmap, -, -⟩ := hinv
  refine ⟨hmap, by rw [hmap, List.length_map], ?_⟩
  intro i
  rw [hmap, List.getElem?_map]

/-- C9: `ContainerWidget::add_child` with a null child is a no-op — both
the widget child sequence and the solver node's child list are left
unchanged. -/
theorem c9_null_child_noop (s : ContainerState) :
    (ContainerWidget.add_child s none).childrenW = s.childrenW ∧
    (ContainerWidget.add_child s none).yogaChildren = s.yogaChildren ∧
    ContainerWidget.add_child s none = s :=
  ⟨rfl, rfl, rfl⟩

/-- C8 (code bug): evaluating `Widget::set_width` at the failing input — a
widget whose solver style width was previously set to 50, called with
`YGUndefined`. Because `YGUndefined` is NaN and `width != YGUndefined`
follows IEEE semantics, the guard is true even for `YGUndefined` itself,
so the call *writes* the undefined marker into the solver style (resetting
it to auto) instead of leaving the style untouched as the claim states.
The final conjunct shows the intended guard value differs from the IEEE
one. -/
theorem c8_nan_guard_evaluation :
    (Widget.set_width { kind := .label, ygWidth := some 50 } YGUndef).ygWidth = none ∧
    ({ kind := .label, ygWidth := some 50 } : WData).ygWidth = some 50 ∧
    fneq YGUndef YGUndef = true ∧
    (Widget.set_width { kind := .label, ygWidth := some 50 } (some 120)).ygWidth = some 120 :=
  ⟨rfl, rfl, rfl, rfl⟩

/-- Run a sequence of size/DPI operations from a freshly constructed
panel. -/
def runPOps (t : String) (w h : ℚ) (ops : List POp) : PanelState :=
  ops.foldl stepPOp (Panel.new t w h)

/-- Projection facts about `Panel::update_layout`: it only touches the
cached last-solved size. -/
theorem update_layout_projections (s : PanelState) :
    (Panel.update_layout s).pwidth = s.pwidth ∧
    (Panel.update_layout s).pheight = s.pheight ∧
    (Panel.update_layout s).baseWidth = s.baseWidth ∧
    (Panel.update_layout s).baseHeight = s.baseHeight ∧
    (Panel.update_layout s).dpiScale = s.dpiScale := by
  unfold Panel.update_layout
  split <;> exact ⟨rfl, rfl, rfl, rfl, rfl⟩

/-- Invariant carried through the panel-operation induction: the DPI scale
stays positive and the physical size is the logical size times the scale. -/
def PanelInv (s : PanelState) : Prop :=
  0 < s.dpiScale ∧
  s.pwidth = s.baseWidth * s.dpiScale ∧
  s.pheight = s.baseHeight * s.dpiScale

theorem panelInv_init (t : String) (w h : ℚ) : PanelInv (Panel.new t w h) := by
  refine ⟨one_pos, ?_, ?_⟩ <;> simp [Panel.new]

theorem panelInv_step (s : PanelState) (op : POp) (h : PanelInv s) :
    PanelInv (stepPOp s op) := by
  obtain ⟨hpos, hw, hh⟩ := h
  cases op with
  | setW w =>
    refine ⟨hpos, ?_, hh⟩
    show w = (if 0 < s.dpiScale then w / s.dpiScale else w) * s.dpiScale
    rw [if_pos hpos, div_mul_cancel₀]
    exact ne_of_gt hpos
  | setH hh2 =>
    refine ⟨hpos, hw, ?_⟩
    show hh2 = (if 0 < s.dpiScale then hh2 / s.dpiScale else hh2) * s.dpiScale
    rw [if_pos hpos, div_mul_cancel₀]
    exact ne_of_gt hpos
  | setDpi k =>
    show PanelInv (Panel.set_dpi_scale s k)
    unfold Panel.set_dpi_scale
    split
    · exact ⟨hpos, hw, hh⟩
    · rename_i hk
      have hk2 : 0 < k := lt_of_not_ge (fun h2 => hk (le_of_lt (lt_of_le_of_ne h2 (fun h3 => hk (le_of_eq h3)))))
      obtain ⟨p1, p2, p3, p4, p5⟩ := update_layout_projections
        { s with dpiScale := k, pwidth := s.baseWidth * k, pheight := s.baseHeight * k,
                 lastLayoutWidth := -1, lastLayoutHeight := -1, sizeDirty := true }
      refine ⟨?_, ?_, ?_⟩
      · rw [p5]; exact hk2
      · rw [p1, p3, p5]
      · rw [p2, p4, p5]

/-- C5: after any sequence of `set_width` / `set_height` /
`set_dpi_scale` calls on a panel, the physical width (resp. height)
equals the logical base width (resp. height) times the current DPI scale;
`set_dpi_scale` with a non-positive scale is a no-op; with a positive
scale it preserves the logical size and recomputes the physical size, so
repeating it with the same scale yields an identical physical size. -/
theorem c5_dpi_size_invariant (t : String) (w h : ℚ) (ops : List POp) :
    ((runPOps t w h ops).pwidth = (runPOps t w h ops).baseWidth * (runPOps t w h ops).dpiScale ∧
     (runPOps t w h ops).pheight = (runPOps t w h ops).baseHeight * (runPOps t w h ops).dpiScale) ∧
    (∀ (s : PanelState) (k : ℚ), k ≤ 0 → Panel.set_dpi_scale s k = s) ∧
    (∀ (s : PanelState) (k : ℚ), 0 < k →
      (Panel.set_dpi_scale s k).baseWidth = s.baseWidth ∧
      (Panel.set_dpi_scale s k).baseHeight = s.baseHeight ∧
      (Panel.set_dpi_scale s k).dpiScale = k ∧
      (Panel.set_dpi_scale s k).pwidth = s.baseWidth * k ∧
      (Panel.set_dpi_scale s k).pheight = s.baseHeight * k) ∧
    (∀ (s : PanelState) (k : ℚ),
      (Panel.set_dpi_scale (Panel.set_dpi_scale s k) k).pwidth = (Panel.set_dpi_scale s k).pwidth ∧
      (Panel.set_dpi_scale (Panel.set_dpi_scale s k) k).pheight = (Panel.set_dpi_scale s k).pheight) := by
  have hrun : PanelInv (runPOps t w h ops) := by
    unfold runPOps
    have := panelInv_init t w h
    revert this
    generalize Panel.new t w h = s0
    intro h0
    induction ops generalizing s0 with
    | nil => exact h0
    | cons op rest ih => exact ih _ (panelInv_step s0 op h0)
  have hposcase : ∀ (s : PanelState) (k : ℚ), 0 < k →
      (Panel.set_dpi_scale s k).baseWidth = s.baseWidth ∧
      (Panel.set_dpi_scale s k).baseHeight = s.baseHeight ∧
      (Panel.set_dpi_scale s k).dpiScale = k ∧
      (Panel.set_dpi_scale s k).pwidth = s.baseWidth * k ∧
      (Panel.set_dpi_scale s k).pheight = s.baseHeight * k := by
    intro s k hk
    unfold Panel.set_dpi_scale
    rw [if_neg (not_le.mpr hk)]
    obtain ⟨p1, p2, p3, p4, p5⟩ := update_layout_projections
      { s with dpiScale := k, pwidth := s.baseWidth * k, pheight := s.baseHeight * k,
               lastLayoutWidth := -1, lastLayoutHeight := -1, sizeDirty := true }
    exact ⟨p3, p4, p5, p1, p2⟩
  refine ⟨⟨hrun.2.1, hrun.2.2⟩, ?_, hposcase, ?_⟩
  · intro s k hk
    unfold Panel.set_dpi_scale
    rw [if_pos hk]
  · intro s k
    rcases le_or_lt k 0 with hk | hk
    · have hno : ∀ (s2 : PanelState), Panel.set_dpi_scale s2 k = s2 := by
        intro s2
        unfold Panel.set_dpi_scale
        rw [if_pos hk]
      rw [hno, hno]
      exact ⟨rfl, rfl⟩
    · obtain ⟨q1, q2, -, q4, q5⟩ := hposcase (Panel.set_dpi_scale s k) k hk
      obtain ⟨r1, r2, -, r4, r5⟩ := hposcase s k hk
      constructor
      · rw [q4, r1]
        exact r4.symm
      · rw [q5, r2]
        exact r5.symm

/-- Witness for C5 at concrete inputs: a panel 400×300, scaled to DPI 2,
then width set to 1000; and the no-op / idempotence conjuncts instantiated
at a concrete state and scales. -/
theorem c5_dpi_size_invariant_witness :
    ((runPOps "w" 400 300 [POp.setDpi 2, POp.setW 1000]).pwidth =
      (runPOps "w" 400 300 [POp.setDpi 2, POp.setW 1000]).baseWidth *
      (runPOps "w" 400 300 [POp.setDpi 2, POp.setW 1000]).dpiScale) ∧
    Panel.set_dpi_scale (Panel.new "w" 400 300) (-1) = Panel.new "w" 400 300 ∧
    (Panel.set_dpi_scale (Panel.new "w" 400 300) 2).pwidth = 400 * 2 ∧
    (Panel.set_dpi_scale (Panel.set_dpi_scale (Panel.new "w" 400 300) 2) 2).pwidth =
      (Panel.set_dpi_scale (Panel.new "w" 400 300) 2).pwidth := by
  have h := c5_dpi_size_invariant "w" 400 300 [POp.setDpi 2, POp.setW 1000]
  refine ⟨h.1.1, h.2.1 _ (-1) (by norm_num), ?_, (h.2.2.2 (Panel.new "w" 400 300) 2).1⟩
  have h3 := (h.2.2.1 (Panel.new "w" 400 300) 2 (by norm_num)).2.2.2.1
  rw [h3]
  rfl

/-- The reachable panel state used for the C6 analysis: a 100×50 panel
with a root widget installed (so the last-solved size is 100×50). -/
def c6panel : PanelState := Panel.set_root_widget (Panel.new "t" 100 50)

/-- First render input for C6: available size (100.5, 50). -/
def c6inp1 : RenderInput := { availW := 201 / 2, availH := 50 }

/-- Second render input for C6: available size (101, 50), only epsilon away
from the first. -/
def c6inp2 : RenderInput := { availW := 101, availH := 50 }

/-- C6 counterexample: an open panel with a root widget on which two
successive `render()` calls see available sizes that differ by no more
than the epsilon (exactly 1/2), yet the *second* call does invoke
`update_layout` — because the first call was itself gated off, leaving the
cached size where it was. This refutes the claim's "the second render()
does not call update_layout" under its "differs by no more than the fixed
epsilon" reading of "unchanged". -/
theorem c6_counterexample :
    c6panel.isOpen = true ∧
    c6panel.hasRoot = true ∧
    abs (c6inp1.availW - c6inp2.availW) ≤ kEpsilon ∧
    abs (c6inp1.availH - c6inp2.availH) ≤ kEpsilon ∧
    (Panel.render c6panel c6inp1).2 = false ∧
    (Panel.render (Panel.render c6panel c6inp1).1 c6inp2).2 = true := by
  refine ⟨rfl, rfl, by norm_num [c6inp1, c6inp2, kEpsilon, abs_le], by norm_num [c6inp1, c6inp2, kEpsilon, abs_le], ?_, ?_⟩ <;>
    norm_num [c6panel, c6inp1, c6inp2, kEpsilon, Panel.render, Panel.set_root_widget,
      Panel.update_layout, Panel.new, abs]

/-- C6 (amended): two successive `render()` calls whose reported available
sizes differ by no more than the fixed epsilon perform at most one solver
invocation — the two calls cannot both invoke `update_layout` on the root,
because a first solve caches the first size and the second size is then
within epsilon of the cache. -/
theorem c6_amended_at_most_one_solve (s : PanelState) (i1 i2 : RenderInput)
    (s1 s2 : PanelState) (b1 b2 : Bool)
    (h1 : Panel.render s i1 = (s1, b1)) (h2 : Panel.render s1 i2 = (s2, b2))
    (hw : abs (i1.availW - i2.availW) ≤ kEpsilon)
    (hh : abs (i1.availH - i2.availH) ≤ kEpsilon) :
    ¬(b1 = true ∧ b2 = true) := by
  rintro ⟨hb1, hb2⟩
  subst hb1
  subst hb2
  simp only [Panel.render] at h1
  split at h1
  · exact Bool.false_ne_true (congrArg Prod.snd h1)
  · split at h1
    · split at h1
      · injection h1 with hfst hsnd
        subst hfst
        simp only [Panel.render] at h2
        split at h2
        · exact Bool.false_ne_true (congrArg Prod.snd h2)
        · split at h2
          · split at h2
            · rename_i hgate
              rcases hgate with hg | hg
              · exact absurd hw (not_le.mpr hg)
              · exact absurd hh (not_le.mpr hg)
            · exact Bool.false_ne_true (congrArg Prod.snd h2)
          · exact Bool.false_ne_true (congrArg Prod.snd h2)
      · exact Bool.false_ne_true (congrArg Prod.snd h1)
    · exact Bool.false_ne_true (congrArg Prod.snd h1)

/-- C6 witness: the amended theorem applied to the concrete panel, a first
render that solves at (200, 80) and a second render at the same size that
is gated off. -/
theorem c6_amended_witness : ¬((true : Bool) = true ∧ (false : Bool) = true) := by
  have h1 : Panel.render c6panel { availW := 200, availH := 80 } =
      ({ ptitle := "t", pwidth := 100, pheight := 50, baseWidth := 100, baseHeight := 50,
         dpiScale := 1, isOpen := true, hasRoot := true,
         lastLayoutWidth := 200, lastLayoutHeight := 80, sizeDirty := false }, true) := by
    norm_num [Panel.render, c6panel, Panel.set_root_widget, Panel.update_layout, Panel.new,
      kEpsilon, abs]
  have h2 : Panel.render
      ({ ptitle := "t", pwidth := 100, pheight := 50, baseWidth := 100, baseHeight := 50,
         dpiScale := 1, isOpen := true, hasRoot := true,
         lastLayoutWidth := 200, lastLayoutHeight := 80, sizeDirty := false } : PanelState)
      { availW := 200, availH := 80 } =
      ({ ptitle := "t", pwidth := 100, pheight := 50, baseWidth := 100, baseHeight := 50,
         dpiScale := 1, isOpen := true, hasRoot := true,
         lastLayoutWidth := 200, lastLayoutHeight := 80, sizeDirty := false }, false) := by
    norm_num [Panel.render, kEpsilon, abs]
  exact c6_amended_at_most_one_solve c6panel _ _ _ _ true false h1 h2
    (by norm_num [kEpsilon]) (by norm_num [kEpsilon])

/-- C7 counterexample: a document that is accessible with modification
time 0 (the epoch) while the stored time is 5. The current time is
readable and differs from the stored time, so the claim requires
`has_changed()` to return true — but the code conflates a zero time with
inaccessibility and returns false, leaving the state untouched. -/
theorem c7_counterexample :
    (0 : Int) ≠ 5 ∧
    get_file_modified_time (some 0) = 0 ∧
    (has_changed { lastModifiedTime := 5, observers := [3] } (some 0)).1 = false ∧
    (has_changed { lastModifiedTime := 5, observers := [3] } (some 0)).2.1 =
      { lastModifiedTime := 5, observers := [3] } ∧
    (has_changed { lastModifiedTime := 5, observers := [3] } (some 0)).2.2 = [] := by
  refine ⟨by decide, rfl, ?_, ?_, ?_⟩ <;> decide

/-- C7 (amended): `has_changed()` returns true iff the document's current
modification time is readable, *non-zero*, and differs from the stored
time (a readable modification time of exactly 0 is conflated with
inaccessibility and treated as no change); exactly in that case it updates
the stored time and notifies every registered observer; when the document
is inaccessible it returns false and leaves the stored time untouched. -/
theorem c7_amended_has_changed (s : WatcherState) (fs : Option Int) :
    ((has_changed s fs).1 = true ↔
      ∃ t, fs = some t ∧ t ≠ s.lastModifiedTime ∧ t ≠ 0) ∧
    ((has_changed s fs).1 = true →
      (has_changed s fs).2.1.lastModifiedTime = get_file_modified_time fs ∧
      (has_changed s fs).2.1.observers = s.observers ∧
      (has_changed s fs).2.2 = s.observers) ∧
    ((has_changed s fs).1 = false →
      (has_changed s fs).2.1 = s ∧ (has_changed s fs).2.2 = []) ∧
    (fs = none → (has_changed s fs).1 = false ∧ (has_changed s fs).2.1 = s) := by
  unfold has_changed get_file_modified_time
  cases fs with
  | none =>
    have hcond : ¬((0 : Int) ≠ s.lastModifiedTime ∧ (0 : Int) ≠ 0) := by
      rintro ⟨-, h0⟩; exact h0 rfl
    rw [if_neg hcond]
    refine ⟨?_, ?_, ?_, ?_⟩
    · simp
    · intro h; exact absurd h (by simp)
    · intro _; exact ⟨rfl, rfl⟩
    · intro _; exact ⟨rfl, rfl⟩
  | some t =>
    by_cases hcond : t ≠ s.lastModifiedTime ∧ t ≠ 0
    · rw [if_pos hcond]
      refine ⟨?_, ?_, ?_, ?_⟩
      · simp only [eq_self_iff_true, true_iff]
        exact ⟨t, rfl, hcond⟩
      · intro _; exact ⟨rfl, rfl, rfl⟩
      · intro h; exact absurd h (by simp)
      · intro h; exact absurd h (by simp)
    · rw [if_neg hcond]
      refine ⟨?_, ?_, ?_, ?_⟩
      · simp only [Bool.false_eq_true, false_iff]
        rintro ⟨t2, ht2, hne, hnz⟩
        obtain rfl := Option.some.inj ht2
        exact hcond ⟨hne, hnz⟩
      · intro h; exact absurd h (by simp)
      · intro _; exact ⟨rfl, rfl⟩
      · intro h; exact absurd h (by simp)

/-- C7 witness: the amended theorem applied at a watcher with stored time
3 and one observer, seeing a readable non-zero changed time 9. -/
theorem c7_amended_witness :
    (has_changed { lastModifiedTime := 3, observers := [7] } (some 9)).2.1.lastModifiedTime =
      get_file_modified_time (some 9) ∧
    (has_changed { lastModifiedTime := 3, observers := [7] } (some 9)).2.2 = [7] := by
  have h := (c7_amended_has_changed { lastModifiedTime := 3, observers := [7] } (some 9)).2.1
    (by decide)
  exact ⟨h.1, h.2.2⟩

/-- Bounds of a successful `std::stoi`: the result fits in a 32-bit int
(otherwise the conversion would have thrown std::out_of_range). -/
theorem stoiInt_range (s : String) (i : Int) (h : stoiInt s = some i) :
    -(2 ^ 31) ≤ i ∧ i < 2 ^ 31 := by
  unfold stoiInt at h
  dsimp only at h
  rcases hsgn : (match List.dropWhile (fun c => c == ' ') s.data with
    | '-' :: rest => ((true : Bool), rest)
    | '+' :: rest => ((false : Bool), rest)
    | x => ((false : Bool), List.dropWhile (fun c => c == ' ') s.data)) with ⟨neg, cs⟩
  rw [hsgn] at h
  dsimp only at h
  rcases hpd : parseDigits cs with _ | ⟨v, rest⟩
  · rw [hpd] at h
    exact absurd h (by simp)
  · rw [hpd] at h
    dsimp only at h
    split at h <;> split at h <;>
      first
        | (obtain rfl := Option.some.inj h; assumption)
        | (exact absurd h (by simp))

/-- The signed/unsigned comparison `city_idx < cities.size()` is false for
any in-int-range index at or beyond the sequence length. -/
theorem idxInRange_eq_false (i : Int) (n : Nat) (h0 : 0 ≤ i) (hlt : i < 2 ^ 64)
    (hge : (n : Int) ≤ i) : idxInRange i n = false := by
  unfold idxInRange
  rw [Int.emod_eq_of_lt h0 hlt]
  simp only [decide_eq_false_iff_not, not_lt]
  omega

/-- The `AppData` record used by the C3 witness: three default cities. -/
def app3 : AppData := { cities := [{}, {}, {}] }

/-- C3: for every input or radio element whose bind attribute has the
indexed form `<field>_<index>` with the index at or beyond the current
length of the external record's city sequence, translation succeeds, the
produced widget's binding is empty (`bindF` keeps its default `none`), and
no exception escapes. All seven indexed bind families of the source are
covered; the translator never writes to the external record (its model
only reads `app`). -/
theorem c3_out_of_range_bind_unbound (app : AppData) (id r : String) (i : Int)
    (hr : stoiInt r = some i) (hge : (app.cities.length : Int) ≤ i) :
    parse_element app [] (XmlElement.mk "input"
        [("id", id), ("bind", "city_name_" ++ r)] []) =
      Except.ok (some (PWidget.node { kind := .inputText, wid := id } [])) ∧
    parse_element app [] (XmlElement.mk "input"
        [("id", id), ("type", "number"), ("bind", "city_lat_" ++ r)] []) =
      Except.ok (some (PWidget.node { kind := .inputNumber, wid := id } [])) ∧
    parse_element app [] (XmlElement.mk "input"
        [("id", id), ("type", "number"), ("bind", "city_lon_" ++ r)] []) =
      Except.ok (some (PWidget.node { kind := .inputNumber, wid := id } [])) ∧
    parse_element app [] (XmlElement.mk "input"
        [("id", id), ("type", "number"), ("bind", "city_elev_" ++ r)] []) =
      Except.ok (some (PWidget.node { kind := .inputNumber, wid := id } [])) ∧
    parse_element app [] (XmlElement.mk "input"
        [("id", id), ("type", "number"), ("bind", "city_temp_" ++ r)] []) =
      Except.ok (some (PWidget.node { kind := .inputNumber, wid := id } [])) ∧
    parse_element app [] (XmlElement.mk "input"
        [("id", id), ("type", "number"), ("bind", "city_pop_" ++ r)] []) =
      Except.ok (some (PWidget.node { kind := .inputNumber, wid := id } [])) ∧
    parse_element app [] (XmlElement.mk "radio"
        [("id", id), ("bind", "city_climate_" ++ r)] []) =
      Except.ok (some (PWidget.node { kind := .radio, wid := id } [])) ∧
    ({ kind := WKind.inputNumber, wid := id } : WData).bindF = none := by
  have h0 : (0 : Int) ≤ i := le_trans (Int.ofNat_nonneg _) hge
  have hlt : i < 2 ^ 64 :=
    lt_trans (stoiInt_range r i hr).2 (by norm_num)
  have hidx : idxInRange i app.cities.length = false :=
    idxInRange_eq_false i app.cities.length h0 hlt hge
  refine ⟨?_, ?_, ?_, ?_, ?_, ?_, ?_, rfl⟩
  · have hbase : parse_element app [] (XmlElement.mk "input"
        [("id", id), ("bind", "city_name_" ++ r)] []) =
        Except.ok (some (PWidget.node { kind := .inputText, wid := id, bindF := match stoiInt r with
          | some j => if idxInRange j app.cities.length then
              some (.cityName (j % (2 : Int) ^ 64).toNat) else none
          | none => none } [])) := rfl
    rw [hbase, hr]
    simp only [hidx]
    rfl
  · have hbase : parse_element app [] (XmlElement.mk "input"
        [("id", id), ("type", "number"), ("bind", "city_lat_" ++ r)] []) =
        Except.ok (some (PWidget.node { kind := .inputNumber, wid := id, bindF := match stoiInt r with
          | some j => if idxInRange j app.cities.length then
              some (.cityLat (j % (2 : Int) ^ 64).toNat) else none
          | none => none } [])) := rfl
    rw [hbase, hr]
    simp only [hidx]
    rfl
  · have hbase : parse_element app [] (XmlElement.mk "input"
        [("id", id), ("type", "number"), ("bind", "city_lon_" ++ r)] []) =
        Except.ok (some (PWidget.node { kind := .inputNumber, wid := id, bindF := match stoiInt r with
          | some j => if idxInRange j app.cities.length then
              some (.cityLon (j % (2 : Int) ^ 64).toNat) else none
          | none => none } [])) := rfl
    rw [hbase, hr]
    simp only [hidx]
    rfl
  · have hbase : parse_element app [] (XmlElement.mk "input"
        [("id", id), ("type", "number"), ("bind", "city_elev_" ++ r)] []) =
        Except.ok (some (PWidget.node { kind := .inputNumber, wid := id, bindF := match stoiInt r with
          | some j => if idxInRange j app.cities.length then
              some (.cityElev (j % (2 : Int) ^ 64).toNat) else none
          | none => none } [])) := rfl
    rw [hbase, hr]
    simp only [hidx]
    rfl
  · have hbase : parse_element app [] (XmlElement.mk "input"
        [("id", id), ("type", "number"), ("bind", "city_temp_" ++ r)] []) =
        Except.ok (some (PWidget.node { kind := .inputNumber, wid := id, bindF := match stoiInt r with
          | some j => if idxInRange j app.cities.length then
              some (.cityTemp (j % (2 : Int) ^ 64).toNat) else none
          | none => none } [])) := rfl
    rw [hbase, hr]
    simp only [hidx]
    rfl
  · have hbase : parse_element app [] (XmlElement.mk "input"
        [("id", id), ("type", "number"), ("bind", "city_pop_" ++ r)] []) =
        Except.ok (some (PWidget.node { kind := .inputNumber, wid := id, bindF := match stoiInt r with
          | some j => if idxInRange j app.cities.length then
              some (.cityPop (j % (2 : Int) ^ 64).toNat) else none
          | none => none } [])) := rfl
    rw [hbase, hr]
    simp only [hidx]
    rfl
  · have hbase : parse_element app [] (XmlElement.mk "radio"
        [("id", id), ("bind", "city_climate_" ++ r)] []) =
        Except.ok (some (PWidget.node { kind := .radio, wid := id, bindF := match stoiInt r with
          | some j => if idxInRange j app.cities.length then
              some (.cityClimate (j % (2 : Int) ^ 64).toNat) else none
          | none => none } [])) := rfl
    rw [hbase, hr]
    simp only [hidx]
    rfl

/-- C3 witness: binding `"city_lat_5"` (and `"city_climate_5"`) against an
external sequence of length 3 resolves to an unbound widget without
error — the end-to-end scenario B of the specification. -/
theorem c3_out_of_range_bind_unbound_witness :
    parse_element app3 [] (XmlElement.mk "input"
        [("id", "lat5"), ("type", "number"), ("bind", "city_lat_" ++ "5")] []) =
      Except.ok (some (PWidget.node { kind := .inputNumber, wid := "lat5" } [])) ∧
    parse_element app3 [] (XmlElement.mk "radio"
        [("id", "cl5"), ("bind", "city_climate_" ++ "5")] []) =
      Except.ok (some (PWidget.node { kind := .radio, wid := "cl5" } [])) ∧
    ({ kind := WKind.inputNumber, wid := "lat5" } : WData).bindF = none := by
  have h5 := c3_out_of_range_bind_unbound app3 "lat5" "5" 5 (by decide) (by decide)
  have h6 := c3_out_of_range_bind_unbound app3 "cl5" "5" 5 (by decide) (by decide)
  exact ⟨h5.2.1, h6.2.2.2.2.2.2.1, h5.2.2.2.2.2.2.2⟩

/-- Reduction of the Except monad bind on a success value. -/
theorem except_bind_ok {ε α β : Type} (a : α) (f : α → Except ε β) :
    (Except.ok a >>= f) = f a := rfl

/-- Reduction of the Except monad bind on a thrown exception. -/
theorem except_bind_error {ε α β : Type} (e : ε) (f : α → Except ε β) :
    ((Except.error e : Except ε α) >>= f) = Except.error e := rfl

/-- The child loop skips an element whose parse produced no widget: the
siblings before and after it translate exactly as if it were absent. -/
theorem parse_children_skip (app : AppData) (cbs : List String) (e : XmlElement)
    (he : parse_element app cbs e = .ok none) (pre post : List XmlElement) :
    parse_children app cbs (pre ++ e :: post) = parse_children app cbs (pre ++ post) := by
  induction pre with
  | nil =>
    show parse_children app cbs (e :: post) = parse_children app cbs post
    simp [parse_children, he, except_bind_ok]
  | cons p pre ih =>
    show parse_children app cbs (p :: (pre ++ e :: post)) =
      parse_children app cbs (p :: (pre ++ post))
    cases hp : parse_element app cbs p with
    | error err => simp [parse_children, hp, except_bind_error]
    | ok r =>
      cases r with
      | none => simp [parse_children, hp, ih, except_bind_ok]
      | some w => simp [parse_children, hp, ih, except_bind_ok]

/-- The tags with a registered strategy (the keys inserted by the
`XmlParser` constructor). -/
def registeredTags : List String :=
  ["label", "input", "checkbox", "radio", "button", "hlayout", "vlayout"]

/-- A tag outside the registered set has no strategy. -/
theorem runStrategy_eq_none_of_unknown (e : XmlElement) (app : AppData)
    (cbs : List String) (h : e.ename ∉ registeredTags) :
    runStrategy e app cbs = none := by
  simp only [registeredTags, List.mem_cons, List.mem_singleton, not_or,
    List.not_mem_nil] at h
  obtain ⟨h1, h2, h3, h4, h5, h6, h7⟩ := h
  simp [runStrategy, h1, h2, h3, h4, h5, h6, h7]

/-- An element with no registered strategy parses to "no widget" without
error. -/
theorem parse_element_unknown (app : AppData) (cbs : List String)
    (e : XmlElement) (h : runStrategy e app cbs = none) :
    parse_element app cbs e = .ok none := by
  cases e with
  | mk nm attrs cs =>
    simp only [parse_element, h]
    rfl

/-- Computation of `parse_element` on a bare `vlayout` container: the
translated children are attached to the produced container widget;
an exception from any child propagates. -/
theorem parse_vlayout_eq (app : AppData) (cbs : List String) (cs : List XmlElement) :
    parse_element app cbs (XmlElement.mk "vlayout" [] cs) =
      (parse_children app cbs cs) >>=
        (fun ch => Except.ok (some (PWidget.node { kind := .vlayout } ch))) := rfl

/-- C4: an element whose tag has no registered strategy yields no widget
and is skipped, while its siblings are still translated and attached to
the parent container; the unknown tag never aborts translation of the
rest of the document. -/
theorem c4_unknown_tag_skipped (app : AppData) (cbs : List String) (e : XmlElement)
    (he : e.ename ∉ registeredTags) (pre post : List XmlElement) :
    parse_element app cbs e = .ok none ∧
    parse_children app cbs (pre ++ e :: post) = parse_children app cbs (pre ++ post) ∧
    parse_element app cbs (XmlElement.mk "vlayout" [] (pre ++ e :: post)) =
      parse_element app cbs (XmlElement.mk "vlayout" [] (pre ++ post)) := by
  have h1 := parse_element_unknown app cbs e (runStrategy_eq_none_of_unknown e app cbs he)
  have h2 := parse_children_skip app cbs e h1 pre post
  refine ⟨h1, h2, ?_⟩
  rw [parse_vlayout_eq, parse_vlayout_eq, h2]

/-- C4 witness: a concrete document in which an unknown `<bogus>` element
sits between a label and a button inside a `vlayout`. -/
theorem c4_unknown_tag_skipped_witness :
    parse_element {} [] (XmlElement.mk "bogus" [] []) = .ok none ∧
    parse_children {} [] ([XmlElement.mk "label" [("id", "a")] []] ++
        XmlElement.mk "bogus" [] [] :: [XmlElement.mk "button" [("id", "b")] []]) =
      parse_children {} [] ([XmlElement.mk "label" [("id", "a")] []] ++
        [XmlElement.mk "button" [("id", "b")] []]) ∧
    parse_element {} [] (XmlElement.mk "vlayout" []
        ([XmlElement.mk "label" [("id", "a")] []] ++
          XmlElement.mk "bogus" [] [] :: [XmlElement.mk "button" [("id", "b")] []])) =
      parse_element {} [] (XmlElement.mk "vlayout" []
        ([XmlElement.mk "label" [("id", "a")] []] ++
          [XmlElement.mk "button" [("id", "b")] []])) :=
  c4_unknown_tag_skipped {} [] (XmlElement.mk "bogus" [] []) (by decide)
    [XmlElement.mk "label" [("id", "a")] []] [XmlElement.mk "button" [("id", "b")] []]

/-- C10: an input element whose `type` attribute is neither "text" nor
"number" produces no widget from the input strategy, so the element is
dropped and its siblings are still processed, exactly like an unknown
tag; a missing `type` attribute defaults to "text" and produces a text
input widget. -/
theorem c10_invalid_input_type (app : AppData) (cbs : List String)
    (attrs : List (String × String)) (cs : List XmlElement)
    (t : String) (ht : getAttr (XmlElement.mk "input" attrs cs) "type" = some t)
    (ht1 : t ≠ "text") (ht2 : t ≠ "number")
    (pre post : List XmlElement) :
    parse_element app cbs (XmlElement.mk "input" attrs cs) = .ok none ∧
    parse_children app cbs (pre ++ XmlElement.mk "input" attrs cs :: post) =
      parse_children app cbs (pre ++ post) ∧
    parse_element app cbs (XmlElement.mk "vlayout" []
        (pre ++ XmlElement.mk "input" attrs cs :: post)) =
      parse_element app cbs (XmlElement.mk "vlayout" [] (pre ++ post)) ∧
    (∀ (attrs2 : List (String × String)) (cs2 : List XmlElement),
      getAttr (XmlElement.mk "input" attrs2 cs2) "type" = none →
      ∃ d, inputStrategy (XmlElement.mk "input" attrs2 cs2) app = some d ∧
        d.kind = .inputText) := by
  have hbt : (t == "text") = false := beq_eq_false_iff_ne.mpr ht1
  have hbn : (t == "number") = false := beq_eq_false_iff_ne.mpr ht2
  have his : inputStrategy (XmlElement.mk "input" attrs cs) app = none := by
    unfold inputStrategy get_attribute
    rw [ht]
    simp only [Option.getD_some, hbt, hbn]
    rfl
  have hrs : runStrategy (XmlElement.mk "input" attrs cs) app cbs =
      some (.ok (inputStrategy (XmlElement.mk "input" attrs cs) app)) := rfl
  have h1 : parse_element app cbs (XmlElement.mk "input" attrs cs) = .ok none := by
    simp only [parse_element, hrs, his, except_bind_ok]
    rfl
  have h2 := parse_children_skip app cbs _ h1 pre post
  refine ⟨h1, h2, ?_, ?_⟩
  · rw [parse_vlayout_eq, parse_vlayout_eq, h2]
  · intro attrs2 cs2 hnone
    refine ⟨{ kind := .inputText,
              wid := get_attribute (XmlElement.mk "input" attrs2 cs2) "id" "",
              bindF := resolveTextBind app
                (get_attribute (XmlElement.mk "input" attrs2 cs2) "bind" "") }, ?_, rfl⟩
    unfold inputStrategy get_attribute
    rw [hnone]
    rfl

/-- C10 witness: a concrete `<input type="checkbox">` element between two
labels, and a concrete `<input>` without a type attribute. -/
theorem c10_invalid_input_type_witness :
    parse_element {} [] (XmlElement.mk "input" [("type", "checkbox")] []) = .ok none ∧
    parse_children {} [] ([XmlElement.mk "label" [("id", "a")] []] ++
        XmlElement.mk "input" [("type", "checkbox")] [] ::
        [XmlElement.mk "label" [("id", "c")] []]) =
      parse_children {} [] ([XmlElement.mk "label" [("id", "a")] []] ++
        [XmlElement.mk "label" [("id", "c")] []]) ∧
    (∃ d, inputStrategy (XmlElement.mk "input" [("id", "i")] []) {} = some d ∧
      d.kind = .inputText) := by
  have h := c10_invalid_input_type {} [] [("type", "checkbox")] [] "checkbox"
    (by decide) (by decide) (by decide)
    [XmlElement.mk "label" [("id", "a")] []] [XmlElement.mk "label" [("id", "c")] []]
  exact ⟨h.1, h.2.1, h.2.2.2 [("id", "i")] [] (by decide)⟩


/-- Reduction of the Except monad bind on a pure value. -/
theorem except_pure_bind {ε α β : Type} (a : α) (f : α → Except ε β) :
    ((pure a : Except ε α) >>= f) = f a := rfl

/-- Reduction of `parse_element` when the strategy produced a widget and
`apply_properties_to_widget` throws: the exception escapes the element's
parse. -/
theorem parse_element_props_error (app : AppData) (cbs : List String)
    (nm : String) (attrs : List (String × String)) (cs : List XmlElement)
    (d : WData) (err : PErr)
    (hrs : runStrategy (XmlElement.mk nm attrs cs) app cbs = some (.ok (some d)))
    (happ : apply_properties_to_widget d (XmlElement.mk nm attrs cs) = .error err) :
    parse_element app cbs (XmlElement.mk nm attrs cs) = .error err := by
  simp only [parse_element, hrs, except_bind_ok, happ, except_bind_error]

/-- A present non-empty `width` attribute whose conversion throws makes
`apply_properties_to_widget` throw. -/
theorem apply_props_width_error (d : WData) (e : XmlElement) (err : PErr)
    (hw : get_attribute e "width" "" ≠ "")
    (herr : stofOrThrow (get_attribute e "width" "") = .error err) :
    apply_properties_to_widget d e = .error err := by
  unfold apply_properties_to_widget
  dsimp only
  rw [if_pos hw, herr]
  rfl

/-- A present non-empty `height` attribute whose conversion throws makes
`apply_properties_to_widget` throw (no width attribute present). -/
theorem apply_props_height_error (d : WData) (e : XmlElement) (err : PErr)
    (hw : get_attribute e "width" "" = "")
    (hh : get_attribute e "height" "" ≠ "")
    (herr : stofOrThrow (get_attribute e "height" "") = .error err) :
    apply_properties_to_widget d e = .error err := by
  unfold apply_properties_to_widget
  dsimp only
  rw [hw, if_neg (fun hcon => hcon rfl)]
  simp only [except_pure_bind]
  rw [if_pos hh, herr]
  rfl

/-- A present non-empty `flex` attribute whose conversion throws makes
`apply_properties_to_widget` throw (no width / height attribute
present). -/
theorem apply_props_flex_error (d : WData) (e : XmlElement) (err : PErr)
    (hw : get_attribute e "width" "" = "")
    (hh : get_attribute e "height" "" = "")
    (hf : get_attribute e "flex" "" ≠ "")
    (herr : stofOrThrow (get_attribute e "flex" "") = .error err) :
    apply_properties_to_widget d e = .error err := by
  unfold apply_properties_to_widget
  dsimp only
  rw [hw, if_neg (fun hcon => hcon rfl)]
  simp only [except_pure_bind]
  rw [hh, if_neg (fun hcon => hcon rfl)]
  rw [if_pos hf, herr]
  rfl

/-- C1 counterexample: a document whose middle label carries
`width="abc"`. The uncaught `std::stof` exception aborts the *whole*
translation — the parent parse returns the error and the healthy siblings
are lost — while the same document without the offending element
translates fine. This refutes both "property left at its default" on a
surviving widget and "the failure never unwinds past the enclosing parse
call". -/
theorem c1_counterexample :
    parse_element {} [] (XmlElement.mk "label" [("id", "b"), ("width", "abc")] []) =
      Except.error PErr.invalidNumeric ∧
    parse_element {} [] (XmlElement.mk "vlayout" []
        [XmlElement.mk "label" [("id", "a")] [],
         XmlElement.mk "label" [("id", "b"), ("width", "abc")] [],
         XmlElement.mk "label" [("id", "c")] []]) =
      Except.error PErr.invalidNumeric ∧
    parse_element {} [] (XmlElement.mk "vlayout" []
        [XmlElement.mk "label" [("id", "a")] [],
         XmlElement.mk "label" [("id", "c")] []]) =
      Except.ok (some (PWidget.node { kind := .vlayout }
        [PWidget.node { kind := .label, wid := "a" } [],
         PWidget.node { kind := .label, wid := "c" } []])) :=
  ⟨rfl, rfl, rfl⟩

/-- C1 (amended): a present, non-empty width / height / flex / radio-value
attribute that is not a valid number makes the uncaught
`std::stof` / `std::stoi` throw, and the exception unwinds past the
enclosing parse call, aborting translation of the element, its siblings
and the rest of the document; only a bad *bind index* is caught locally,
leaving the binding at its default while translation succeeds. -/
theorem c1_amended_numeric_attr_failure (app : AppData) (cbs : List String)
    (id w v r : String) (err : PErr) (e : XmlElement) (post : List XmlElement) :
    (w ≠ "" → stofQ w = none →
      parse_element app cbs (XmlElement.mk "label" [("id", id), ("width", w)] []) =
        Except.error PErr.invalidNumeric) ∧
    (w ≠ "" → stofQ w = none →
      parse_element app cbs (XmlElement.mk "label" [("id", id), ("height", w)] []) =
        Except.error PErr.invalidNumeric) ∧
    (w ≠ "" → stofQ w = none →
      parse_element app cbs (XmlElement.mk "label" [("id", id), ("flex", w)] []) =
        Except.error PErr.invalidNumeric) ∧
    (stoiInt v = none →
      parse_element app cbs (XmlElement.mk "radio" [("id", id), ("value", v)] []) =
        Except.error PErr.invalidNumeric) ∧
    (parse_element app cbs e = .error err →
      parse_element app cbs (XmlElement.mk "vlayout" [] (e :: post)) = .error err) ∧
    (stoiInt r = none →
      parse_element app [] (XmlElement.mk "input"
          [("id", id), ("type", "number"), ("bind", "city_lat_" ++ r)] []) =
        Except.ok (some (PWidget.node { kind := .inputNumber, wid := id } []))) := by
  refine ⟨?_, ?_, ?_, ?_, ?_, ?_⟩
  · intro hne hw
    have hsof : stofOrThrow w = Except.error PErr.invalidNumeric := by
      unfold stofOrThrow
      rw [hw]
    exact parse_element_props_error app cbs _ _ _ _ _ rfl
      (apply_props_width_error _ _ _ hne hsof)
  · intro hne hw
    have hsof : stofOrThrow w = Except.error PErr.invalidNumeric := by
      unfold stofOrThrow
      rw [hw]
    exact parse_element_props_error app cbs _ _ _ _ _ rfl
      (apply_props_height_error _ _ _ rfl hne hsof)
  · intro hne hw
    have hsof : stofOrThrow w = Except.error PErr.invalidNumeric := by
      unfold stofOrThrow
      rw [hw]
    exact parse_element_props_error app cbs _ _ _ _ _ rfl
      (apply_props_flex_error _ _ _ rfl rfl hne hsof)
  · intro hv
    have hstr : radioStrategy (XmlElement.mk "radio" [("id", id), ("value", v)] []) app =
        Except.error PErr.invalidNumeric := by
      unfold radioStrategy
      have hval : get_attribute (XmlElement.mk "radio" [("id", id), ("value", v)] [])
          "value" "0" = v := rfl
      rw [hval]
      dsimp only
      rw [hv]
    have hrs : runStrategy (XmlElement.mk "radio" [("id", id), ("value", v)] []) app cbs =
        some (radioStrategy (XmlElement.mk "radio" [("id", id), ("value", v)] []) app) := rfl
    simp only [parse_element, hrs, hstr, except_bind_error]
  · intro he
    rw [parse_vlayout_eq]
    have hch : parse_children app cbs (e :: post) = .error err := by
      simp [parse_children, he, except_bind_error]
    rw [hch, except_bind_error]
  · intro hr
    have hbase : parse_element app [] (XmlElement.mk "input"
        [("id", id), ("type", "number"), ("bind", "city_lat_" ++ r)] []) =
        Except.ok (some (PWidget.node { kind := .inputNumber, wid := id, bindF := match stoiInt r with
          | some j => if idxInRange j app.cities.length then
              some (.cityLat (j % (2 : Int) ^ 64).toNat) else none
          | none => none } [])) := rfl
    rw [hbase, hr]

/-- C1 witness: the amended theorem applied at `width="abc"`,
`value="x"`, bind index `"zz"`, and the concrete erroring label inside a
container with a healthy sibling. -/
theorem c1_amended_numeric_attr_failure_witness :
    parse_element {} [] (XmlElement.mk "label" [("id", "b"), ("width", "abc")] []) =
      Except.error PErr.invalidNumeric ∧
    parse_element {} [] (XmlElement.mk "radio" [("id", "rr"), ("value", "x")] []) =
      Except.error PErr.invalidNumeric ∧
    parse_element {} [] (XmlElement.mk "vlayout" []
        (XmlElement.mk "label" [("id", "b"), ("width", "abc")] [] ::
          [XmlElement.mk "label" [("id", "c")] []])) =
      Except.error PErr.invalidNumeric ∧
    parse_element {} [] (XmlElement.mk "input"
        [("id", "i"), ("type", "number"), ("bind", "city_lat_" ++ "zz")] []) =
      Except.ok (some (PWidget.node { kind := .inputNumber, wid := "i" } [])) := by
  have h := c1_amended_numeric_attr_failure {} [] "b" "abc" "x" "zz" PErr.invalidNumeric
    (XmlElement.mk "label" [("id", "b"), ("width", "abc")] [])
    [XmlElement.mk "label" [("id", "c")] []]
  have h2 := c1_amended_numeric_attr_failure {} [] "rr" "abc" "x" "zz" PErr.invalidNumeric
    (XmlElement.mk "label" [("id", "b"), ("width", "abc")] [])
    [XmlElement.mk "label" [("id", "c")] []]
  have h3 := c1_amended_numeric_attr_failure {} [] "i" "abc" "x" "zz" PErr.invalidNumeric
    (XmlElement.mk "label" [("id", "b"), ("width", "abc")] [])
    [XmlElement.mk "label" [("id", "c")] []]
  refine ⟨h.1 (by decide) (by decide), h2.2.2.2.1 (by decide), ?_,
    h3.2.2.2.2.2 (by decide)⟩
  exact h.2.2.2.2.1 (h.1 (by decide) (by decide))

end ImguiXmlOop
